import Mathlib

/-!
Shallow embedding of the DownDetector monitoring system
(src/monitor.py, src/config.py) and verification of its
specification claims.

Statuses are modelled as the exact strings the source uses
("OPERATIONAL", "POSSIBLE ISSUES", "OUTAGE DETECTED",
"SUSPICIOUS / UNKNOWN", "POTENTIAL OUTAGE") plus the sentinel
"initial"; the state store is an association list from target URL
to last observed status, matching the `site_states` dict.
-/

set_option autoImplicit false

namespace DownDetector

/-! ### String primitives: Python's `needle in haystack` and `str.lower()` -/

/-- Whether `needle` is a prefix of `haystack`, on character lists. -/
def isPrefixOfChars : List Char → List Char → Bool
  | [], _ => true
  | _ :: _, [] => false
  | a :: as, b :: bs => a == b && isPrefixOfChars as bs

/-- Whether `needle` occurs as a contiguous substring of `haystack`,
on character lists (Python's `needle in haystack`; the empty needle
occurs in every string). -/
def substrAux : List Char → List Char → Bool
  | [], needle => needle.isEmpty
  | c :: rest, needle => isPrefixOfChars needle (c :: rest) || substrAux rest needle

/-- Python's `needle in haystack` for strings. -/
def containsSubstring (haystack needle : String) : Bool :=
  substrAux haystack.data needle.data

/-- Python's `str.lower()` (ASCII case folding, as all source inputs are ASCII). -/
def strToLower (s : String) : String :=
  ⟨s.data.map Char.toLower⟩

/-! ### Status classifiers (src/monitor.py `check_downdetector`, `check_generic`) -/

/-- `check_downdetector(page_source)` from src/monitor.py: checks the three
indicator phrases in fixed order, most benign first. -/
def check_downdetector (page_source : String) : String :=
  if containsSubstring page_source "indicate no current problems" then "OPERATIONAL"
  else if containsSubstring page_source "possible problems" then "POSSIBLE ISSUES"
  else if containsSubstring page_source "indicate problems" then "OUTAGE DETECTED"
  else "SUSPICIOUS / UNKNOWN"

/-- `check_generic(page_source, good_keywords)` from src/monitor.py:
returns "OPERATIONAL" on the first keyword whose lowercase form occurs in
`page_source`, else "POTENTIAL OUTAGE". Note only the keyword is lowered,
never the content. -/
def check_generic (page_source : String) : List String → String
  | [] => "POTENTIAL OUTAGE"
  | keyword :: rest =>
    if containsSubstring page_source (strToLower keyword) then "OPERATIONAL"
    else check_generic page_source rest

/-! ### Configuration (src/config.py `Config`) -/

/-- The fields of `Config` read from the environment in `Config.__init__`. -/
structure Config where
  email_sender : String
  email_password : String
  email_receivers : List String
  slack_webhook_url : String
  check_delay : Nat
  loop_delay : Nat
deriving DecidableEq

/-- `Config.slack_enabled`: `bool(self.slack_webhook_url)` — true iff nonempty. -/
def slack_enabled (c : Config) : Bool :=
  c.slack_webhook_url ≠ ""

/-- The `errors` list accumulated by `Config.validate`. -/
def validateErrors (c : Config) : List String :=
  (if c.email_sender = "" then ["EMAIL_SENDER is not set"] else []) ++
  (if c.email_password = "" then ["EMAIL_PASSWORD is not set"] else []) ++
  (if c.email_receivers = [] then ["EMAIL_RECEIVERS is not set or empty"] else [])

/-- `Config.validate`: if any required email setting is missing, the process
exits via `sys.exit(1)` (modelled as `.error 1`); otherwise returns `True`.
The Slack webhook only produces a warning print, never an error. -/
def validate (c : Config) : Except Nat Bool :=
  if validateErrors c ≠ [] then Except.error 1 else Except.ok true

/-! ### Notification channels (src/monitor.py `send_email_alert`, `send_slack_alert`) -/

/-- The data the monitoring loop passes to both notification channels on a
status change: `send_email_alert(config, name, current_status, url)` and
`send_slack_alert(config, name, current_status, url)` receive exactly these
three values (plus the config). -/
structure AlertEvent where
  site_name : String
  status : String
  ref_url : String
deriving DecidableEq

/-- The email subject composed in `send_email_alert`. -/
def emailSubject (e : AlertEvent) : String :=
  "ALERT: " ++ e.site_name ++ " is " ++ e.status

/-- The email body composed in `send_email_alert` (with `extra_info`, which the
monitoring loop leaves at its default `""`). -/
def emailBody (e : AlertEvent) (extra_info : String) : String :=
  "Monitor Alert!\n\nSite: " ++ e.site_name ++ "\nNew Status: " ++ e.status ++
    "\nLink: " ++ e.ref_url ++ "\n\n" ++ extra_info

/-- The Slack message text composed in `send_slack_alert`. -/
def slackPayloadText (e : AlertEvent) : String :=
  "🚨 *Monitor Alert: " ++ e.site_name ++ "*\n*Status:* " ++ e.status ++
    "\n<" ++ e.ref_url ++ "|View Status Page>"

/-- Outcome of the SMTP session attempted inside `send_email_alert`'s
`try` block (external world behaviour). Every variant is caught by one of
the three `except` clauses, which is why `send_email_alert` is total. -/
inductive EmailOutcome where
  | sent
  | authError
  | smtpError (msg : String)
  | otherError (msg : String)
deriving DecidableEq

/-- What `send_email_alert` logs for each outcome: every exception is caught
inside the function, so it always returns to the caller. -/
inductive EmailResult where
  | sentTo (subject : String) (body : String) (n : Nat)
  | authFailed
  | smtpFailed (msg : String)
  | otherFailed (msg : String)
deriving DecidableEq

/-- `send_email_alert` from src/monitor.py, as a total function of the SMTP
outcome: the message is composed from the event (with `extra_info = ""`, the
default the loop uses), and the `try`/`except` chain converts every failure
into a printed log line (modelled by the `EmailResult` value) and falls
through. -/
def send_email_alert (c : Config) (e : AlertEvent) : EmailOutcome → EmailResult
  | EmailOutcome.sent =>
    EmailResult.sentTo (emailSubject e) (emailBody e "") c.email_receivers.length
  | EmailOutcome.authError => EmailResult.authFailed
  | EmailOutcome.smtpError msg => EmailResult.smtpFailed msg
  | EmailOutcome.otherError msg => EmailResult.otherFailed msg

/-- Outcome of the HTTP POST attempted inside `send_slack_alert`'s `try`
block (external world behaviour). -/
inductive SlackOutcome where
  | response (status_code : Nat) (body : String)
  | timedOut
  | requestFailed (msg : String)
deriving DecidableEq

/-- What `send_slack_alert` logs after posting; all exceptions are caught. -/
inductive SlackResult where
  | sent
  | httpError (status_code : Nat) (body : String)
  | timeoutError
  | requestError (msg : String)
deriving DecidableEq

/-- A performed Slack webhook call: the payload that was posted and how the
post ended. -/
structure SlackCall where
  payload : String
  result : SlackResult
deriving DecidableEq

/-- `send_slack_alert` from src/monitor.py: returns immediately (no call,
modelled as `none`) when Slack is not configured; otherwise posts the payload
built from the event and logs the outcome, catching every exception. -/
def send_slack_alert (c : Config) (e : AlertEvent) (so : SlackOutcome) :
    Option SlackCall :=
  if slack_enabled c = false then none
  else some
    { payload := slackPayloadText e
      result :=
        match so with
        | SlackOutcome.response 200 _ => SlackResult.sent
        | SlackOutcome.response code body => SlackResult.httpError code body
        | SlackOutcome.timedOut => SlackResult.timeoutError
        | SlackOutcome.requestFailed msg => SlackResult.requestError msg }

/-- Lines 372–376 of src/monitor.py: on a detected status change the loop
calls `send_email_alert` and then, unconditionally after it returns (all its
exceptions are caught internally), `send_slack_alert` with the same event. -/
def dispatchAlerts (c : Config) (e : AlertEvent) (eo : EmailOutcome)
    (so : SlackOutcome) : EmailResult × Option SlackCall :=
  (send_email_alert c e eo, send_slack_alert c e so)

/-! ### Targets and state store (src/config.py `TARGETS`, src/monitor.py loop) -/

/-- One entry of the `TARGETS` list in src/config.py. `good_keywords` is
`none` when the dict has no such key (downdetector-mode targets). -/
structure Target where
  name : String
  url : String
  mode : String
  good_keywords : Option (List String)
deriving DecidableEq

/-- The `TARGETS` list from src/config.py. -/
def TARGETS : List Target :=
  [ { name := "Internet Archive"
      url := "https://downdetector.com/status/internetarchive/"
      mode := "downdetector"
      good_keywords := none }
  , { name := "Roblox"
      url := "https://downdetector.com/status/roblox/"
      mode := "downdetector"
      good_keywords := none }
  , { name := "OpenAI API"
      url := "https://status.openai.com/"
      mode := "generic"
      good_keywords := some ["all systems operational", "operational"] } ]

/-- The `site_states` dict: URL keyed, value is the last stored status. -/
abbrev StateStore : Type := List (String × String)

/-- Dict read `site_states[url]` (`none` models a `KeyError`). -/
def lookupState : StateStore → String → Option String
  | [], _ => none
  | (k, v) :: rest, url => if k = url then some v else lookupState rest url

/-- Dict write `site_states[url] = v`. -/
def setState : StateStore → String → String → StateStore
  | [], url, v => [(url, v)]
  | (k, old) :: rest, url, v =>
    if k = url then (k, v) :: rest else (k, old) :: setState rest url v

/-- `site_states = {target['url']: "initial" for target in TARGETS}`. -/
def initStates : StateStore :=
  TARGETS.map fun t => (t.url, "initial")

/-! ### Transition detection (src/monitor.py lines 362–379) -/

/-- Lines 362–379 of src/monitor.py: look up the previous status; when the
new status differs, send alerts only if the stored status is not the
"initial" sentinel, and store the new status. Returns the event handed to
both channels (if any) and the updated store. A `KeyError` on the lookup
would be caught by the surrounding `except`, leaving the store untouched
and sending nothing. -/
def statusStep (store : StateStore) (name url current_status : String) :
    Option AlertEvent × StateStore :=
  match lookupState store url with
  | none => (none, store)
  | some last_status =>
    if current_status ≠ last_status then
      ( if last_status ≠ "initial" then
          some { site_name := name, status := current_status, ref_url := url }
        else none
      , setState store url current_status )
    else (none, store)

/-! ### Per-target processing (src/monitor.py lines 330–386) -/

/-- What the browser interaction inside the `try` block yields for one
target: either some exception (`driver.get`, page access, …), or the page
title and raw page source. -/
inductive FetchResult where
  | failure (msg : String)
  | success (title : String) (raw_source : String)
deriving DecidableEq

/-- Lines 347–357 of src/monitor.py: mode dispatch. `page_source` is the
already-lowercased content; `none` models the `else` branch that logs
"Unknown mode" and skips the target. Generic mode defaults the keyword list
to `['operational']` via `target.get('good_keywords', ['operational'])`. -/
def classifyForMode (mode : String) (page_source : String)
    (good_keywords : Option (List String)) : Option String :=
  if mode = "downdetector" then some (check_downdetector page_source)
  else if mode = "generic" then
    some (check_generic page_source (good_keywords.getD ["operational"]))
  else none

/-- Result of processing one target in one cycle: the event dispatched (if
any), the state store afterwards, and whether the inter-target
`time.sleep(config.check_delay)` at line 386 was reached. -/
structure TargetOutcome where
  event : Option AlertEvent
  store : StateStore
  sleptCheckDelay : Bool
deriving DecidableEq

/-- Lines 330–386 of src/monitor.py, for one target. On a fetch exception
the `except` clause logs and falls through to the check-delay sleep; the
Cloudflare-block `continue` (line 344) and the unknown-mode `continue`
(line 357) jump straight to the next target, skipping the sleep at line
386. The page source is lowercased before classification (line 339). -/
def processTarget (store : StateStore) (t : Target) (fetch : FetchResult) :
    TargetOutcome :=
  match fetch with
  | FetchResult.failure _ =>
    { event := none, store := store, sleptCheckDelay := true }
  | FetchResult.success title raw_source =>
    let page_source := strToLower raw_source
    if containsSubstring (strToLower title) "just a moment" then
      { event := none, store := store, sleptCheckDelay := false }
    else
      match classifyForMode t.mode page_source t.good_keywords with
      | none => { event := none, store := store, sleptCheckDelay := false }
      | some current_status =>
        let r := statusStep store t.name t.url current_status
        { event := r.1, store := r.2, sleptCheckDelay := true }

/-! ### Sample data for concrete evaluations -/

/-- A fully configured `Config` (all email settings present, Slack enabled). -/
def cfgSample : Config :=
  { email_sender := "alerts@example.com"
    email_password := "apppassword"
    email_receivers := ["ops@example.com", "oncall@example.com"]
    slack_webhook_url := "https://hooks.slack.com/services/T000/B000/XXXX"
    check_delay := 10
    loop_delay := 60 }

/-- A config with every email setting present but no Slack webhook. -/
def cfgNoSlack : Config :=
  { email_sender := "alerts@example.com"
    email_password := "apppassword"
    email_receivers := ["ops@example.com"]
    slack_webhook_url := ""
    check_delay := 10
    loop_delay := 60 }

/-- A config whose `EMAIL_SENDER` is missing. -/
def cfgMissingSender : Config :=
  { email_sender := ""
    email_password := "apppassword"
    email_receivers := ["ops@example.com"]
    slack_webhook_url := "https://hooks.slack.com/services/T000/B000/XXXX"
    check_delay := 10
    loop_delay := 60 }

/-- A sample alert event as the loop would build it for the Roblox target. -/
def eventSample : AlertEvent :=
  { site_name := "Roblox"
    status := "OUTAGE DETECTED"
    ref_url := "https://downdetector.com/status/roblox/" }

/-! ### Helper lemmas -/

/-- Reading back a key just written returns the written value. -/
theorem lookupState_setState (store : StateStore) (url v : String) :
    lookupState (setState store url v) url = some v := by
  induction store with
  | nil => simp [setState, lookupState]
  | cons head rest ih =>
    obtain ⟨k, old⟩ := head
    by_cases hk : k = url
    · simp [setState, lookupState, hk]
    · simp [setState, lookupState, hk, ih]

/-- The empty needle occurs in every character list (Python: `"" in s`). -/
theorem substrAux_nil_needle (h : List Char) : substrAux h [] = true := by
  induction h with
  | nil => rfl
  | cons c rest ih => simp [substrAux, isPrefixOfChars, ih]

/-- The empty string is a substring of every string. -/
theorem containsSubstring_empty_needle (s : String) :
    containsSubstring s "" = true :=
  substrAux_nil_needle s.data

/-! ### Claims -/

/-- Claim C1: for every target (any store entry for its URL), the per-target
transition check of src/monitor.py lines 362–379 dispatches a notification
iff the stored status is neither the "initial" sentinel nor equal to the
newly classified status. In particular the first successful classification
after startup (stored status "initial") never dispatches, and a
classification equal to the stored status never dispatches. -/
theorem statusStep_alert_iff (store : StateStore)
    (name url current_status last_status : String)
    (h : lookupState store url = some last_status) :
    (statusStep store name url current_status).1.isSome = true ↔
      (last_status ≠ "initial" ∧ current_status ≠ last_status) := by
  unfold statusStep
  rw [h]
  by_cases h1 : current_status = last_status
  · simp [h1]
  · by_cases h2 : last_status = "initial"
    · simp [h1, h2]
      split <;> rfl
    · simp [h1, h2]

/-- Claim C1 witness: with the OpenAI target stored at "initial", a first
classification of "OPERATIONAL" fires no alert. -/
theorem statusStep_alert_iff_witness :
    lookupState [("https://status.openai.com/", "initial")]
        "https://status.openai.com/" = some "initial" ∧
    ((statusStep [("https://status.openai.com/", "initial")] "OpenAI API"
        "https://status.openai.com/" "OPERATIONAL").1.isSome = true ↔
      (("initial" : String) ≠ "initial" ∧ ("OPERATIONAL" : String) ≠ "initial")) :=
  ⟨by decide,
   statusStep_alert_iff [("https://status.openai.com/", "initial")] "OpenAI API"
     "https://status.openai.com/" "OPERATIONAL" "initial" (by decide)⟩

/-- Claim C2 counterexample: the dispatched event does not carry the previous
status. Two runs that differ only in the stored previous status
("OPERATIONAL" vs "POSSIBLE ISSUES") dispatch the very same event, so the
event cannot determine — hence does not carry — the previous status; and the
email body built from that event never mentions the previous status
"OPERATIONAL" (the `last_status -> current_status` pair is only printed to
the console, src/monitor.py line 370). -/
theorem statusStep_event_no_previous_status :
    (statusStep [("u", "OPERATIONAL")] "X" "u" "OUTAGE DETECTED").1 =
        (statusStep [("u", "POSSIBLE ISSUES")] "X" "u" "OUTAGE DETECTED").1 ∧
    (statusStep [("u", "OPERATIONAL")] "X" "u" "OUTAGE DETECTED").1 =
        some { site_name := "X", status := "OUTAGE DETECTED", ref_url := "u" } ∧
    containsSubstring
        (emailBody { site_name := "X", status := "OUTAGE DETECTED", ref_url := "u" } "")
        "OPERATIONAL" = false := by
  decide

/-- Claim C2 (amended): when the stored status is neither "initial" nor equal
to the new status, exactly one notification event is dispatched, and it
carries the target identity, the NEW status and the reference URL — but not
the previous status. -/
theorem statusStep_event_contents (store : StateStore)
    (name url current_status last_status : String)
    (h : lookupState store url = some last_status)
    (h1 : last_status ≠ "initial") (h2 : current_status ≠ last_status) :
    (statusStep store name url current_status).1 =
      some { site_name := name, status := current_status, ref_url := url } := by
  unfold statusStep
  rw [h]
  simp [h1, h2]

/-- Claim C2 witness: a concrete OPERATIONAL to OUTAGE DETECTED transition
dispatches exactly the event with the new status. -/
theorem statusStep_event_contents_witness :
    (statusStep [("https://downdetector.com/status/roblox/", "OPERATIONAL")]
        "Roblox" "https://downdetector.com/status/roblox/" "OUTAGE DETECTED").1 =
      some { site_name := "Roblox", status := "OUTAGE DETECTED",
             ref_url := "https://downdetector.com/status/roblox/" } :=
  statusStep_event_contents
    [("https://downdetector.com/status/roblox/", "OPERATIONAL")]
    "Roblox" "https://downdetector.com/status/roblox/" "OUTAGE DETECTED"
    "OPERATIONAL" (by decide) (by decide) (by decide)

/-- Claim C3: after every successful classification the store entry for the
target's URL equals the newly classified status (whether or not an alert
fired: if the status changed it is written at line 379, and if it did not
change the entry already equals it), while a fetch failure, a detected
Cloudflare block page, or an unknown classification mode leaves the whole
store unchanged. -/
theorem store_reflects_last_classification (store : StateStore) (t : Target)
    (name url current_status last_status msg title raw : String)
    (h : lookupState store url = some last_status) :
    lookupState (statusStep store name url current_status).2 url =
        some current_status ∧
    (processTarget store t (FetchResult.failure msg)).store = store ∧
    (containsSubstring (strToLower title) "just a moment" = true →
      (processTarget store t (FetchResult.success title raw)).store = store) ∧
    (t.mode ≠ "downdetector" → t.mode ≠ "generic" →
      (processTarget store t (FetchResult.success title raw)).store = store) := by
  refine ⟨?_, rfl, ?_, ?_⟩
  · unfold statusStep
    rw [h]
    by_cases h1 : current_status = last_status
    · simp [h1, h]
    · simp [h1, lookupState_setState]
  · intro hb
    unfold processTarget
    simp [hb]
  · intro hm1 hm2
    unfold processTarget
    by_cases hb : containsSubstring (strToLower title) "just a moment" = true
    · simp [hb]
    · simp [hb, classifyForMode, hm1, hm2]

/-- Claim C3 witness: a steady-state re-classification keeps the entry, and
concrete skip situations leave the store unchanged. -/
theorem store_reflects_last_classification_witness :
    lookupState (statusStep [("https://status.openai.com/", "OPERATIONAL")]
        "OpenAI API" "https://status.openai.com/" "OPERATIONAL").2
        "https://status.openai.com/" = some "OPERATIONAL" ∧
    (processTarget [("https://status.openai.com/", "OPERATIONAL")]
        { name := "OpenAI API", url := "https://status.openai.com/",
          mode := "generic", good_keywords := some ["operational"] }
        (FetchResult.failure "timeout")).store =
      [("https://status.openai.com/", "OPERATIONAL")] ∧
    (containsSubstring (strToLower "Just a moment...") "just a moment" = true →
      (processTarget [("https://status.openai.com/", "OPERATIONAL")]
          { name := "OpenAI API", url := "https://status.openai.com/",
            mode := "generic", good_keywords := some ["operational"] }
          (FetchResult.success "Just a moment..." "challenge")).store =
        [("https://status.openai.com/", "OPERATIONAL")]) ∧
    (({ name := "OpenAI API", url := "https://status.openai.com/",
        mode := "generic", good_keywords := some ["operational"] } : Target).mode ≠
          "downdetector" →
      ({ name := "OpenAI API", url := "https://status.openai.com/",
         mode := "generic", good_keywords := some ["operational"] } : Target).mode ≠
          "generic" →
      (processTarget [("https://status.openai.com/", "OPERATIONAL")]
          { name := "OpenAI API", url := "https://status.openai.com/",
            mode := "generic", good_keywords := some ["operational"] }
          (FetchResult.success "Just a moment..." "challenge")).store =
        [("https://status.openai.com/", "OPERATIONAL")]) :=
  store_reflects_last_classification
    [("https://status.openai.com/", "OPERATIONAL")]
    { name := "OpenAI API", url := "https://status.openai.com/",
      mode := "generic", good_keywords := some ["operational"] }
    "OpenAI API" "https://status.openai.com/" "OPERATIONAL" "OPERATIONAL"
    "timeout" "Just a moment..." "challenge" (by decide)

/-- Claim C4: `check_downdetector` tests the indicator phrases in fixed
priority order — "indicate no current problems" first (OPERATIONAL), then
"possible problems" (POSSIBLE ISSUES), then "indicate problems"
(OUTAGE DETECTED), else SUSPICIOUS / UNKNOWN — so any page containing both
the no-problems phrase and the problems phrase, in either positional order,
classifies as OPERATIONAL. -/
theorem check_downdetector_priority (s : String) :
    (containsSubstring s "indicate no current problems" = true →
      check_downdetector s = "OPERATIONAL") ∧
    (containsSubstring s "indicate no current problems" = false →
      containsSubstring s "possible problems" = true →
      check_downdetector s = "POSSIBLE ISSUES") ∧
    (containsSubstring s "indicate no current problems" = false →
      containsSubstring s "possible problems" = false →
      containsSubstring s "indicate problems" = true →
      check_downdetector s = "OUTAGE DETECTED") ∧
    (containsSubstring s "indicate no current problems" = false →
      containsSubstring s "possible problems" = false →
      containsSubstring s "indicate problems" = false →
      check_downdetector s = "SUSPICIOUS / UNKNOWN") ∧
    (containsSubstring s "indicate no current problems" = true →
      containsSubstring s "indicate problems" = true →
      check_downdetector s = "OPERATIONAL") := by
  refine ⟨fun h1 => ?_, fun h1 h2 => ?_, fun h1 h2 h3 => ?_,
    fun h1 h2 h3 => ?_, fun h1 _ => ?_⟩ <;>
    simp [check_downdetector, h1]
  · simp [h2]
  · simp [h2, h3]
  · simp [h2, h3]

/-- Claim C4 witness: a page with both "indicate no current problems" and
"indicate problems" — the problems phrase last — is OPERATIONAL. -/
theorem check_downdetector_priority_witness :
    containsSubstring
        "reports indicate no current problems while older reports indicate problems"
        "indicate no current problems" = true ∧
    containsSubstring
        "reports indicate no current problems while older reports indicate problems"
        "indicate problems" = true ∧
    check_downdetector
        "reports indicate no current problems while older reports indicate problems" =
      "OPERATIONAL" :=
  ⟨by decide, by decide,
   (check_downdetector_priority
       "reports indicate no current problems while older reports indicate problems").2.2.2.2
     (by decide) (by decide)⟩

/-- Claim C5: the two channels are invoked independently. Every SMTP outcome
(auth error, SMTP error, any other exception) is caught inside
`send_email_alert`, so the dispatch sequence always reaches
`send_slack_alert`: the Slack call and its payload are the same whatever the
email outcome was, and when Slack is enabled the posted payload is built
from the very same event. Both sends being total functions, no channel
failure escapes to terminate the monitoring loop. -/
theorem dispatch_channels_independent (c : Config) (e : AlertEvent)
    (eo eo' : EmailOutcome) (so : SlackOutcome) :
    (dispatchAlerts c e eo so).2 = (dispatchAlerts c e eo' so).2 ∧
    (slack_enabled c = true →
      ∃ call, (dispatchAlerts c e eo so).2 = some call ∧
        call.payload = slackPayloadText e) := by
  constructor
  · rfl
  · intro hs
    unfold dispatchAlerts send_slack_alert
    simp [hs]

/-- Claim C5 witness: with email authentication failing, Slack is still
invoked with the event's payload. -/
theorem dispatch_channels_independent_witness :
    (dispatchAlerts cfgSample eventSample EmailOutcome.authError
        (SlackOutcome.response 200 "ok")).2 =
      (dispatchAlerts cfgSample eventSample EmailOutcome.sent
        (SlackOutcome.response 200 "ok")).2 ∧
    ∃ call,
      (dispatchAlerts cfgSample eventSample EmailOutcome.authError
          (SlackOutcome.response 200 "ok")).2 = some call ∧
      call.payload = slackPayloadText eventSample :=
  ⟨(dispatch_channels_independent cfgSample eventSample EmailOutcome.authError
      EmailOutcome.sent (SlackOutcome.response 200 "ok")).1,
   (dispatch_channels_independent cfgSample eventSample EmailOutcome.authError
      EmailOutcome.sent (SlackOutcome.response 200 "ok")).2 (by decide)⟩

/-- Claim C6 counterexample: with an empty keyword list `check_generic`
silently classifies every input as "POTENTIAL OUTAGE" — including content
that the default keywords would classify operational — and returns a plain
status string rather than surfacing any configuration error. -/
theorem check_generic_empty_list_silent :
    check_generic "all systems operational" [] = "POTENTIAL OUTAGE" ∧
    check_generic "" [] = "POTENTIAL OUTAGE" := by
  decide

/-- Claim C6 (amended): `check_generic` with an empty keyword list returns
"POTENTIAL OUTAGE" for every content; no error path exists (the function's
only results are the two status strings), so the empty list is NOT surfaced
to the caller as a configuration input error. -/
theorem check_generic_empty_list (page_source : String) :
    check_generic page_source [] = "POTENTIAL OUTAGE" :=
  rfl

/-- Claim C7: `Config.validate` exits the process with status 1 exactly when
the email sender, the email password, or the recipient list is empty; a
missing Slack webhook alone is not fatal (validation still returns `True`),
and a disabled Slack channel makes `send_slack_alert` return immediately
without posting or logging anything. -/
theorem validate_fatal_iff (c : Config) (e : AlertEvent) (so : SlackOutcome) :
    (validate c = Except.error 1 ↔
      (c.email_sender = "" ∨ c.email_password = "" ∨ c.email_receivers = [])) ∧
    (c.email_sender ≠ "" → c.email_password ≠ "" → c.email_receivers ≠ [] →
      validate c = Except.ok true) ∧
    (slack_enabled c = false → send_slack_alert c e so = none) := by
  refine ⟨?_, fun h1 h2 h3 => ?_, fun hs => ?_⟩
  · unfold validate validateErrors
    by_cases h1 : c.email_sender = "" <;>
      by_cases h2 : c.email_password = "" <;>
        by_cases h3 : c.email_receivers = [] <;>
          simp [h1, h2, h3]
  · unfold validate validateErrors
    simp [h1, h2, h3]
  · unfold send_slack_alert
    simp [hs]

/-- Claim C7 witness: a config missing only its sender is fatal with exit
status 1; the same config with all email settings but no Slack webhook
validates and its Slack channel is skipped silently. -/
theorem validate_fatal_iff_witness :
    validate cfgMissingSender = Except.error 1 ∧
    validate cfgNoSlack = Except.ok true ∧
    send_slack_alert cfgNoSlack eventSample (SlackOutcome.response 200 "ok") =
      none :=
  ⟨(validate_fatal_iff cfgMissingSender eventSample
      (SlackOutcome.response 200 "ok")).1.mpr (Or.inl rfl),
   (validate_fatal_iff cfgNoSlack eventSample
      (SlackOutcome.response 200 "ok")).2.1 (by decide) (by decide) (by decide),
   (validate_fatal_iff cfgNoSlack eventSample
      (SlackOutcome.response 200 "ok")).2.2 (by decide)⟩

/-- Claim C8 counterexample: a target skipped because of a detected
Cloudflare block page does NOT reach the inter-target
`time.sleep(config.check_delay)` — the `continue` at line 344 jumps straight
to the next target, past the sleep at line 386. -/
theorem processTarget_blocked_skips_delay :
    (processTarget [("https://downdetector.com/status/roblox/", "initial")]
        { name := "Roblox", url := "https://downdetector.com/status/roblox/",
          mode := "downdetector", good_keywords := none }
        (FetchResult.success "Just a moment..." "cloudflare challenge")).sleptCheckDelay
      = false := by
  decide

/-- Claim C8 (amended): the inter-target delay is reached after targets whose
fetch failed (the exception is caught and execution falls through to line
386) and after targets that were classified, but NOT after targets skipped
via the Cloudflare block-page `continue` or the unknown-mode `continue`. -/
theorem processTarget_sleep_behaviour (store : StateStore) (t : Target)
    (msg title raw : String) :
    (processTarget store t (FetchResult.failure msg)).sleptCheckDelay = true ∧
    (containsSubstring (strToLower title) "just a moment" = true →
      (processTarget store t (FetchResult.success title raw)).sleptCheckDelay =
        false) ∧
    (containsSubstring (strToLower title) "just a moment" = false →
      (t.mode = "downdetector" ∨ t.mode = "generic") →
      (processTarget store t (FetchResult.success title raw)).sleptCheckDelay =
        true) ∧
    (containsSubstring (strToLower title) "just a moment" = false →
      t.mode ≠ "downdetector" → t.mode ≠ "generic" →
      (processTarget store t (FetchResult.success title raw)).sleptCheckDelay =
        false) := by
  refine ⟨rfl, fun hb => ?_, fun hb hm => ?_, fun hb hm1 hm2 => ?_⟩
  · unfold processTarget
    simp [hb]
  · unfold processTarget
    rcases hm with hm | hm <;> simp [hb, classifyForMode, hm]
  · unfold processTarget
    simp [hb, classifyForMode, hm1, hm2]

/-- Claim C8 witness: a fetch failure still reaches the delay, a blocked page
does not, a classified downdetector page does, and an unknown mode does not. -/
theorem processTarget_sleep_behaviour_witness :
    (processTarget [("u", "initial")]
        { name := "X", url := "u", mode := "rss", good_keywords := none }
        (FetchResult.failure "net::ERR_TIMED_OUT")).sleptCheckDelay = true ∧
    (processTarget [("u", "initial")]
        { name := "X", url := "u", mode := "rss", good_keywords := none }
        (FetchResult.success "Status page" "feed")).sleptCheckDelay = false :=
  ⟨(processTarget_sleep_behaviour [("u", "initial")]
      { name := "X", url := "u", mode := "rss", good_keywords := none }
      "net::ERR_TIMED_OUT" "Status page" "feed").1,
   (processTarget_sleep_behaviour [("u", "initial")]
      { name := "X", url := "u", mode := "rss", good_keywords := none }
      "net::ERR_TIMED_OUT" "Status page" "feed").2.2.2
     (by decide) (by decide) (by decide)⟩

/-- Claim C9 counterexample: `check_generic` itself lowercases only the
keywords, never the content, so fed the mixed-case content
"All Systems Operational" directly it returns "POTENTIAL OUTAGE", not
"OPERATIONAL" as the claim states. -/
theorem check_generic_not_case_insensitive :
    check_generic "All Systems Operational" ["operational"] =
        "POTENTIAL OUTAGE" ∧
    ("POTENTIAL OUTAGE" : String) ≠ "OPERATIONAL" := by
  decide

/-- Claim C9 (amended): the monitoring loop lowercases the page source
(line 339) before classifying, and on that lowered content the keyword mode
classifies "All Systems Operational" with keywords ["operational"] as
OPERATIONAL and "Partial Outage" as POTENTIAL OUTAGE. -/
theorem check_generic_lowered_pipeline :
    classifyForMode "generic" (strToLower "All Systems Operational")
        (some ["operational"]) = some "OPERATIONAL" ∧
    classifyForMode "generic" (strToLower "Partial Outage")
        (some ["operational"]) = some "POTENTIAL OUTAGE" ∧
    check_generic (strToLower "All Systems Operational") ["operational"] =
        "OPERATIONAL" ∧
    check_generic (strToLower "Partial Outage") ["operational"] =
        "POTENTIAL OUTAGE" := by
  decide

/-- Claim C10: if the keyword list contains the empty string then
`check_generic` returns "OPERATIONAL" on every content, because
`"".lower()` is `""` and the empty string is a substring of every string
(Python `"" in s` is always `True`). -/
theorem check_generic_empty_keyword_operational (page_source : String)
    (ks : List String) (h : "" ∈ ks) :
    check_generic page_source ks = "OPERATIONAL" := by
  induction ks with
  | nil => cases h
  | cons k rest ih =>
    rcases List.mem_cons.mp h with hk | hrest
    · have hc : containsSubstring page_source (strToLower k) = true := by
        rw [← hk]
        exact containsSubstring_empty_needle page_source
      unfold check_generic
      simp [hc]
    · by_cases hm : containsSubstring page_source (strToLower k) = true
      · unfold check_generic
        simp [hm]
      · unfold check_generic
        simp [hm, ih hrest]

/-- Claim C10 witness: content with no genuine keyword match is still
classified OPERATIONAL once `""` sits in the keyword list. -/
theorem check_generic_empty_keyword_operational_witness :
    ("" ∈ ["operational", ""]) ∧
    check_generic "Partial Outage" ["operational", ""] = "OPERATIONAL" :=
  ⟨by decide,
   check_generic_empty_keyword_operational "Partial Outage" ["operational", ""]
     (by decide)⟩

end DownDetector
